import Mathlib

/-!
Shallow embedding of the network-orchestration core of the pintomind-os-player
repository (src/main/networkManager.js and src/main/utils.js), together with
proofs of the specified properties.

Shell execution is modelled by an oracle `Nat → ExecOutcome` giving the outcome
of the n-th shell command issued during a run; every orchestration function is
translated to a pure Lean function that threads the index of the next command
and records the trace of issued commands.
-/

/-! ## JavaScript string primitives

The source relies on JS `String.prototype.trim/startsWith/includes/replace/split`.
They are modelled character-exactly over `List Char`. -/

/-- JS `s.trim()`: drop leading and trailing whitespace. -/
def jsTrim (s : String) : String :=
  String.mk (((s.data.dropWhile Char.isWhitespace).reverse.dropWhile Char.isWhitespace).reverse)

/-- JS `s.startsWith(pre)`. -/
def jsStartsWith (s pre : String) : Bool :=
  pre.data.isPrefixOf s.data

/-- Auxiliary for JS `s.includes(pat)`: does `pat` occur as a contiguous sublist? -/
def includesAux (pat : List Char) : List Char → Bool
  | [] => pat.isEmpty
  | c :: cs => pat.isPrefixOf (c :: cs) || includesAux pat cs

/-- JS `s.includes(pat)`: substring containment. -/
def jsIncludes (s pat : String) : Bool :=
  includesAux pat.data s.data

/-- Auxiliary for JS `s.replace(pat, "")`: remove the first occurrence of `pat`
(unchanged when `pat` does not occur). -/
def removeOnceAux (pat : List Char) : List Char → List Char
  | [] => []
  | c :: cs =>
    if pat.isPrefixOf (c :: cs) then (c :: cs).drop pat.length
    else c :: removeOnceAux pat cs

/-- JS `s.replace(pat, "")` with a string pattern: only the first occurrence is removed. -/
def jsReplaceEmpty (pat s : String) : String :=
  String.mk (removeOnceAux pat.data s.data)

/-- Auxiliary for JS `s.split(sep)` with a single-character separator. -/
def splitCharList (sep : Char) : List Char → List (List Char)
  | [] => [[]]
  | c :: cs =>
    match splitCharList sep cs with
    | [] => [[]]
    | p :: ps => if c = sep then [] :: p :: ps else (c :: p) :: ps

/-- JS `input.split("\n")`. -/
def splitLines (s : String) : List String :=
  (splitCharList '\n' s.data).map (fun l => String.mk l)

/-! ## CommandResult and executeCommand (src/main/utils.js, lines 36-57) -/

/-- Result shape produced by `executeCommand`: on success `stdout`/`stderr` hold the
trimmed outputs and `error` is absent; on failure `stdout`/`stderr` are null and
`error` carries the caught error (modelled by its message). -/
structure CommandResult where
  type : Option String := none
  success : Bool
  stdout : Option String := none
  stderr : Option String := none
  error : Option String := none
deriving DecidableEq, Repr

/-- Outcome of one underlying `execAsync` invocation: it either resolves with
stdout/stderr text or rejects with an error. -/
inductive ExecOutcome where
  | ok (stdout stderr : String)
  | err (msg : String)
deriving DecidableEq, Repr

/-- Embedding of `executeCommand(command, type)` from src/main/utils.js.
The try/catch catches every failure, so the embedding is a total function:
no outcome escapes as an exception. -/
def executeCommand (outcome : ExecOutcome) (type : Option String) : CommandResult :=
  match outcome with
  | .ok out errOut =>
      { type := type, success := true,
        stdout := some (jsTrim out), stderr := some (jsTrim errOut), error := none }
  | .err msg =>
      { type := type, success := false, stdout := none, stderr := none, error := some msg }

/-! ## parseWiFiScanResults (src/main/utils.js, lines 513-545) -/

/-- Scan record shape: SSID with its security string. -/
structure NetworkDescriptor where
  ssid : String
  security : String
deriving DecidableEq, Repr

/-- Inner loop of `parseWiFiScanResults`: scan forward from the line after an SSID
line for the first line whose trimmed text starts with "SECURITY:"; yield its
value, or the empty string when none is found. -/
def findSecurity : List String → String
  | [] => ""
  | l :: ls =>
    if jsStartsWith (jsTrim l) "SECURITY:" then jsTrim (jsReplaceEmpty "SECURITY:" l)
    else findSecurity ls

/-- Main loop of `parseWiFiScanResults`, with the `uniqueSSIDNames` set threaded as
the list `seen` of already-emitted SSIDs.  The push condition
`!uniqueSSIDNames.has(ssid) && ssid` requires the SSID to be new and non-empty. -/
def parseLoop (seen : List String) : List String → List NetworkDescriptor
  | [] => []
  | l :: ls =>
    if jsStartsWith (jsTrim l) "SSID:" then
      let ssid := jsTrim (jsReplaceEmpty "SSID:" l)
      let security := findSecurity ls
      if ssid ∈ seen ∨ ssid = "" then parseLoop seen ls
      else ⟨ssid, security⟩ :: parseLoop (ssid :: seen) ls
    else parseLoop seen ls

/-- Embedding of `parseWiFiScanResults(inputString)` from src/main/utils.js. -/
def parseWiFiScanResults (input : String) : List NetworkDescriptor :=
  parseLoop [] (splitLines input)

/-- All SSID records of the scan output in scan order, before deduplication and
before empty SSIDs are dropped (the per-SSID part of the loop body). -/
def scanRecords : List String → List NetworkDescriptor
  | [] => []
  | l :: ls =>
    if jsStartsWith (jsTrim l) "SSID:" then
      ⟨jsTrim (jsReplaceEmpty "SSID:" l), findSecurity ls⟩ :: scanRecords ls
    else scanRecords ls

/-- Reference function following the specification's words: keep the first
occurrence of each SSID (so the first occurrence's security value is the one
kept), drop records whose SSID is empty or was already seen, preserve order. -/
def keepFirstBySSID (seen : List String) : List NetworkDescriptor → List NetworkDescriptor
  | [] => []
  | d :: ds =>
    if d.ssid ∈ seen ∨ d.ssid = "" then keepFirstBySSID seen ds
    else d :: keepFirstBySSID (d.ssid :: seen) ds

example : parseWiFiScanResults "" = [] := by decide
example : parseWiFiScanResults "SSID:A\nSECURITY:X\nSSID:A\nSECURITY:Y" = [⟨"A", "X"⟩] := by decide
example : parseWiFiScanResults "SSID: Net1\nSECURITY: WPA2\nSSID:\nSSID:Net2" =
    [⟨"Net1", "WPA2"⟩, ⟨"Net2", ""⟩] := by decide
example : jsIncludes "deactivated" "activated" = true := by decide
example : executeCommand (.ok " hi \n" "") none =
    { type := none, success := true, stdout := some "hi", stderr := some "", error := none } := by
  decide

/-! ## networkManager.js: command traces and oracle

Each orchestration function issues shell commands in sequence.  A run is
parameterised by an oracle `Nat → ExecOutcome` giving the outcome of the n-th
command of the run; functions receive the index `n` of the next command and
report the ordered trace of commands they issued.  The module-level mutable
`lastConnectionSSID` is threaded explicitly as `Option String` through the
functions that read or write it. -/

/-- Identities of the shell commands issued by networkManager.js (the full
command strings are built with shell-quote in the source; only the command's
identity and arguments matter for the stated properties). -/
inductive Cmd where
  /-- nmcli connection delete SSID -/
  | deleteConn (ssid : String)
  /-- nmcli device wifi connect SSID -/
  | connectUnsecure (ssid : String)
  /-- nmcli connection add ... wifi-sec.psk PASSWORD (WPA path) -/
  | addWPA (ssid : String) (password : Option String)
  /-- nmcli conn add ... wifi-sec.psk PASSWORD (hidden path) -/
  | addHidden (ssid : String) (password : Option String)
  /-- nmcli conn up SSID -/
  | connUp (ssid : String)
  /-- nmcli -f GENERAL.STATE connection show SSID -/
  | connState (ssid : String)
  /-- curl reachability probe against the configured host -/
  | serverProbe
deriving DecidableEq, Repr

/-- Value and command trace of a run fragment that does not touch `lastConnectionSSID`. -/
structure TraceOut (α : Type) where
  val : α
  trace : List Cmd
deriving DecidableEq, Repr

/-- Value, command trace and resulting `lastConnectionSSID` of a run fragment. -/
structure StateOut (α : Type) where
  val : α
  trace : List Cmd
  st : Option String
deriving DecidableEq, Repr

/-- Result of the n-th command of a run, as a CommandResult with the given type tag. -/
def executeCommandAt (oracle : Nat → ExecOutcome) (n : Nat) (tag : Option String) : CommandResult :=
  executeCommand (oracle n) tag

/-- JS value returned by `waitForActiveConnection` (and propagated by
`resolveNetworkConnection`): normally a CommandResult object, but the
"deactivated" branch executes `return false`, returning the primitive `false`. -/
inductive JSReturn where
  | val (r : CommandResult)
  | boolFalse
deriving DecidableEq, Repr

/-- JS truthiness of `x.success` for a `waitForActiveConnection` return value:
property access on the primitive `false` yields `undefined`, which is falsy. -/
def jsSuccessy : JSReturn → Bool
  | .val r => r.success
  | .boolFalse => false

/-- JS `o.includes(pat)` where `o` is a nullable string; every use in the source is
guarded by `result.success`, which guarantees the string is non-null. -/
def optIncludes (o : Option String) (pat : String) : Bool :=
  match o with
  | some s => jsIncludes s pat
  | none => false

/-- JS `o.toString() === lit` where `o` is a nullable string; every use in the source
is guarded by `result.success`, which guarantees the string is non-null. -/
def optEq (o : Option String) (lit : String) : Bool :=
  match o with
  | some s => s = lit
  | none => false

/-- Embedding of `deleteConnectionBySSID(ssid)` (networkManager.js lines 310-315):
issues the delete command, unconditionally clears `lastConnectionSSID`, and
returns whether the delete command succeeded. -/
def deleteConnectionBySSID (oracle : Nat → ExecOutcome) (n : Nat) (ssid : String) :
    StateOut Bool :=
  let deleteResult := executeCommandAt oracle n (some "delete ssid")
  ⟨deleteResult.success, [Cmd.deleteConn ssid], none⟩

/-- Poll classifier: the connection-state output matches "activated"
(networkManager.js line 246).  Note "deactivated" also contains the substring
"activated", so this test also matches deactivated states. -/
def isActivatedPoll (r : CommandResult) : Bool :=
  r.success && optIncludes r.stdout "activated"

/-- Poll classifier: the connection-state output matches "activating" (line 248). -/
def isActivatingPoll (r : CommandResult) : Bool :=
  r.success && optIncludes r.stdout "activating"

/-- Poll classifier: the connection-state output matches "deactivated" (line 252). -/
def isDeactivatedPoll (r : CommandResult) : Bool :=
  r.success && optIncludes r.stdout "deactivated"

/-- Loop body of `waitForActiveConnection` (networkManager.js lines 240-271).
`fuel` is the number of remaining iterations allowed by `attempts < 75`
(the caller starts it at 75); `n` is the index of the next command;
`lastConnectionState` is the loop variable of the same name.  When the fuel is
exhausted the source mutates the last poll's result (the command at index
`n - 1`) into the "Exceeded maximum attempts" failure and returns it.
In the "deactivated" branch the source mutates the local result object and then
executes `return false`, so the primitive `false` is returned and the mutated
object is discarded. -/
def waitLoop (oracle : Nat → ExecOutcome) (ssid : String) :
    Nat → Nat → Option String → TraceOut JSReturn
  | 0, n, _ =>
    ⟨.val { executeCommandAt oracle (n - 1) none with
            success := false,
            stderr := some "Exceeded maximum attempts. Operation failed." }, []⟩
  | fuel + 1, n, lastConnectionState =>
    let connectionState := executeCommandAt oracle n none
    if isActivatedPoll connectionState then
      ⟨.val connectionState, [Cmd.connState ssid]⟩
    else if isActivatingPoll connectionState then
      let rest := waitLoop oracle ssid fuel (n + 1) (some "activating")
      ⟨rest.val, Cmd.connState ssid :: rest.trace⟩
    else if isDeactivatedPoll connectionState then
      ⟨.boolFalse, [Cmd.connState ssid]⟩
    else if lastConnectionState = some "activating" then
      ⟨.val { connectionState with
              success := false,
              stderr := some "Operation went from activating to null. Most likely wrong password",
              type := some "802-11-wireless-security.psk" }, [Cmd.connState ssid]⟩
    else
      let rest := waitLoop oracle ssid fuel (n + 1) lastConnectionState
      ⟨rest.val, Cmd.connState ssid :: rest.trace⟩

/-- Embedding of `waitForActiveConnection(ssid)` (networkManager.js lines 237-272):
at most 75 polls of the connection state, starting with `lastConnectionState = null`. -/
def waitForActiveConnection (oracle : Nat → ExecOutcome) (n : Nat) (ssid : String) :
    TraceOut JSReturn :=
  waitLoop oracle ssid 75 n none

/-- Success test applied to a server probe result: `connection.success &&
connection.stdout.toString() === "1"` (networkManager.js line 295). -/
def serverProbeOk (r : CommandResult) : Bool :=
  r.success && optEq r.stdout "1"

/-- Loop body of `attemptServerConnection` (networkManager.js lines 288-304).
`fuel` is the number of remaining iterations allowed by `attempts < 20`; each
iteration issues one reachability probe (`checkConnectionToServer`, tagged
"server connection").  When the fuel is exhausted the last probe's result (the
command at index `n - 1`) is returned unchanged. -/
def attemptLoop (oracle : Nat → ExecOutcome) : Nat → Nat → TraceOut CommandResult
  | 0, n => ⟨executeCommandAt oracle (n - 1) (some "server connection"), []⟩
  | fuel + 1, n =>
    let connection := executeCommandAt oracle n (some "server connection")
    if serverProbeOk connection then
      ⟨connection, [Cmd.serverProbe]⟩
    else
      let rest := attemptLoop oracle fuel (n + 1)
      ⟨rest.val, Cmd.serverProbe :: rest.trace⟩

/-- Embedding of `attemptServerConnection()` (networkManager.js lines 288-304). -/
def attemptServerConnection (oracle : Nat → ExecOutcome) (n : Nat) : TraceOut CommandResult :=
  attemptLoop oracle 20 n

/-- Embedding of `resolveNetworkConnection(connection, ssid)` (networkManager.js
lines 131-163).  The two `deleteConnectionBySSID` calls in the failure branches
are not awaited in the source; they are modelled sequentially (the delete
command is issued at that point of the run and the SSID slot is cleared). -/
def resolveNetworkConnection (oracle : Nat → ExecOutcome) (n : Nat) (st : Option String)
    (connection : CommandResult) (ssid : String) : StateOut JSReturn :=
  if connection.success then
    let activeConnection := waitForActiveConnection oracle n ssid
    if jsSuccessy activeConnection.val then
      let server := attemptServerConnection oracle (n + activeConnection.trace.length)
      if serverProbeOk server.val then
        ⟨.val server.val, activeConnection.trace ++ server.trace, st⟩
      else
        let del := deleteConnectionBySSID oracle
          (n + activeConnection.trace.length + server.trace.length) ssid
        ⟨.val server.val, activeConnection.trace ++ server.trace ++ del.trace, del.st⟩
    else
      let del := deleteConnectionBySSID oracle (n + activeConnection.trace.length) ssid
      ⟨activeConnection.val, activeConnection.trace ++ del.trace, del.st⟩
  else
    ⟨.val connection, [], st⟩

/-- Embedding of `connectToUnsecureNetwork(ssid)` (networkManager.js lines 170-176). -/
def connectToUnsecureNetwork (oracle : Nat → ExecOutcome) (n : Nat) (st : Option String)
    (ssid : String) : StateOut JSReturn :=
  let connection := executeCommandAt oracle n (some "Unsecure network connection")
  let r := resolveNetworkConnection oracle (n + 1) st connection ssid
  ⟨r.val, Cmd.connectUnsecure ssid :: r.trace, r.st⟩

/-- Embedding of `connectToWPANetwork(ssid, password)` (networkManager.js lines 184-190). -/
def connectToWPANetwork (oracle : Nat → ExecOutcome) (n : Nat) (st : Option String)
    (ssid : String) (password : Option String) : StateOut JSReturn :=
  let connection := executeCommandAt oracle n (some "WPA network connection")
  let r := resolveNetworkConnection oracle (n + 1) st connection ssid
  ⟨r.val, Cmd.addWPA ssid password :: r.trace, r.st⟩

/-- Embedding of `connectToHiddenNetwork(ssid, password)` (networkManager.js
lines 198-230; marked NOT WORKING in the source). -/
def connectToHiddenNetwork (oracle : Nat → ExecOutcome) (n : Nat) (st : Option String)
    (ssid : String) (password : Option String) : StateOut JSReturn :=
  let connectionResult := executeCommandAt oracle n (some "Network connection")
  if connectionResult.success && optIncludes connectionResult.stdout "successfully added" then
    let connectResult := executeCommandAt oracle (n + 1) none
    if connectResult.success &&
        optIncludes connectResult.stdout "Connection successfully activated" then
      let server := attemptServerConnection oracle (n + 2)
      if serverProbeOk server.val then
        ⟨.val server.val, Cmd.addHidden ssid password :: Cmd.connUp ssid :: server.trace, st⟩
      else
        let del := deleteConnectionBySSID oracle (n + 2 + server.trace.length) ssid
        ⟨.val server.val,
         Cmd.addHidden ssid password :: Cmd.connUp ssid :: (server.trace ++ del.trace), del.st⟩
    else
      let del := deleteConnectionBySSID oracle (n + 2) ssid
      ⟨.val connectResult, Cmd.addHidden ssid password :: Cmd.connUp ssid :: del.trace, del.st⟩
  else
    ⟨.val connectionResult, [Cmd.addHidden ssid password], st⟩

/-- Caller-supplied connection request (`data` in `connectToNetwork`):
`hidden` stands for `data.options.hidden` with `options` defaulting to the
empty object. -/
structure ConnectionRequest where
  ssid : String
  password : Option String := none
  security : Option String := none
  hidden : Bool := false
deriving DecidableEq, Repr

/-- JS truthiness of the nullable `password` string (`""`, null and undefined are falsy). -/
def jsTruthyStr : Option String → Bool
  | some s => s ≠ ""
  | none => false

/-- Embedding of `connectToNetwork(data)` (networkManager.js lines 94-123).
`st` is the module variable `lastConnectionSSID` on entry.  The
`ipcMain.emit` notifications issue no shell command and are not part of the
trace.  `const security = data.security || ""` is the `getD ""` below. -/
def connectToNetwork (oracle : Nat → ExecOutcome) (n : Nat) (st : Option String)
    (data : ConnectionRequest) : StateOut JSReturn :=
  let ssid := data.ssid
  let security := data.security.getD ""
  let afterDelete : StateOut Unit :=
    match st with
    | some prev =>
      let d := deleteConnectionBySSID oracle n prev
      ⟨(), d.trace, d.st⟩
    | none => ⟨(), [], st⟩
  let st1 : Option String := some ssid
  let n1 := n + afterDelete.trace.length
  let result : StateOut JSReturn :=
    if data.hidden then
      connectToHiddenNetwork oracle n1 st1 ssid data.password
    else if jsIncludes security "WPA" && jsTruthyStr data.password then
      connectToWPANetwork oracle n1 st1 ssid data.password
    else
      connectToUnsecureNetwork oracle n1 st1 ssid
  ⟨result.val, afterDelete.trace ++ result.trace, result.st⟩

/-! ## addDNS (networkManager.js lines 421-439) -/

/-- Steps of `addDNS`, in issue order: the UUID lookup, the static-DNS
modification, disabling automatic DNS, and the profile down/up cycle. -/
inductive DNSStep where
  | getUUID
  | modifyDNS
  | disableAutoDNS
  | cycleConnection
deriving DecidableEq, Repr

/-- Value (`none` models the implicit `undefined` return) and executed steps of `addDNS`. -/
structure DNSOut where
  val : Option CommandResult
  trace : List DNSStep
deriving DecidableEq, Repr

/-- JS truthiness of a CommandResult value: `executeCommand` always resolves to an
object, and objects are truthy.  This models the `if (disableAutoDNS)` test at
networkManager.js line 430, which tests the result object rather than its
`.success` field. -/
def jsObjectTruthy (_r : CommandResult) : Bool := true

/-- Embedding of `addDNS(dns)` (networkManager.js lines 421-439).  The oracle gives
the outcomes of the up-to-four commands in order: UUID lookup, `ipv4.dns`
modification, `ipv4.ignore-auto-dns yes`, and the down/up cycle (the `dns`
value and resolved UUID only appear inside the command strings).  When the
UUID lookup fails the function falls off the end and returns `undefined`,
modelled as `none`. -/
def addDNS (oracle : Nat → ExecOutcome) (_dns : String) : DNSOut :=
  let connectionNameResult := executeCommand (oracle 0) none
  if connectionNameResult.success then
    let modifyDNS := executeCommand (oracle 1) none
    if modifyDNS.success then
      let disableAutoDNS := executeCommand (oracle 2) none
      if jsObjectTruthy disableAutoDNS then
        ⟨some (executeCommand (oracle 3) none),
         [DNSStep.getUUID, DNSStep.modifyDNS, DNSStep.disableAutoDNS, DNSStep.cycleConnection]⟩
      else
        ⟨some disableAutoDNS, [DNSStep.getUUID, DNSStep.modifyDNS, DNSStep.disableAutoDNS]⟩
    else
      ⟨some modifyDNS, [DNSStep.getUUID, DNSStep.modifyDNS]⟩
  else
    ⟨none, [DNSStep.getUUID]⟩
section Claims

/-- Claim C9: executeCommand never throws past its boundary (the embedding is a
total function on every outcome); on success stdout and stderr are the trimmed
command outputs; every failure surfaces as success=false with a non-null error
payload, and the invariant success = false implies error is non-null holds for
every returned result. -/
theorem executeCommand_contract :
    ∀ (outcome : ExecOutcome) (tag : Option String),
      ((executeCommand outcome tag).success = false → (executeCommand outcome tag).error ≠ none) ∧
      (∀ out errOut, outcome = .ok out errOut →
        executeCommand outcome tag =
          { type := tag, success := true, stdout := some (jsTrim out),
            stderr := some (jsTrim errOut), error := none }) ∧
      (∀ msg, outcome = .err msg →
        executeCommand outcome tag =
          { type := tag, success := false, stdout := none, stderr := none,
            error := some msg }) := by
  intro outcome tag
  cases outcome <;> simp [executeCommand]

/-- Witness for C9 at a concrete failing outcome. -/
theorem executeCommand_contract_witness :
    executeCommand (.err "spawn failure") none =
      { type := none, success := false, stdout := none, stderr := none,
        error := some "spawn failure" } :=
  (executeCommand_contract (.err "spawn failure") none).2.2 "spawn failure" rfl

end Claims

section ParseLemmas

theorem parseLoop_eq_keepFirst (lines : List String) :
    ∀ seen, parseLoop seen lines = keepFirstBySSID seen (scanRecords lines) := by
  induction lines with
  | nil => intro seen; rfl
  | cons l ls ih =>
    intro seen
    simp only [parseLoop, scanRecords]
    by_cases hssid : jsStartsWith (jsTrim l) "SSID:" = true
    · rw [if_pos hssid, if_pos hssid]
      simp only [keepFirstBySSID]
      by_cases hmem : jsTrim (jsReplaceEmpty "SSID:" l) ∈ seen ∨ jsTrim (jsReplaceEmpty "SSID:" l) = ""
      · rw [if_pos hmem, if_pos hmem, ih]
      · rw [if_neg hmem, if_neg hmem, ih]
    · rw [if_neg hssid, if_neg hssid, ih]

theorem scanRecords_eq_nil (lines : List String)
    (h : ∀ l ∈ lines, jsStartsWith (jsTrim l) "SSID:" = false) : scanRecords lines = [] := by
  induction lines with
  | nil => rfl
  | cons l ls ih =>
    simp only [scanRecords]
    rw [if_neg (by simp [h l (List.mem_cons_self l ls)])]
    exact ih (fun x hx => h x (List.mem_cons_of_mem l hx))

theorem keepFirst_length (ds : List NetworkDescriptor) :
    ∀ seen, (keepFirstBySSID seen ds).length =
      (((ds.map NetworkDescriptor.ssid).filter
          (fun s => decide (s ∉ seen ∧ s ≠ ""))).toFinset).card := by
  induction ds with
  | nil => intro seen; simp [keepFirstBySSID]
  | cons d ds ih =>
    intro seen
    simp only [keepFirstBySSID, List.map_cons, List.filter_cons]
    by_cases h : d.ssid ∈ seen ∨ d.ssid = ""
    · rw [if_pos h]
      have hdec : decide (d.ssid ∉ seen ∧ d.ssid ≠ "") = false := by
        simp only [decide_eq_false_iff_not, not_and_or, not_not]
        tauto
      rw [hdec]
      simp only [Bool.false_eq_true, if_false]
      exact ih seen
    · rw [if_neg h]
      push_neg at h
      have hdec : decide (d.ssid ∉ seen ∧ d.ssid ≠ "") = true := by
        simp [h.1, h.2]
      rw [hdec]
      simp only [if_true, List.length_cons, List.toFinset_cons]
      rw [ih (d.ssid :: seen)]
      have hins :
          insert d.ssid (((ds.map NetworkDescriptor.ssid).filter
              (fun s => decide (s ∉ seen ∧ s ≠ ""))).toFinset)
          = insert d.ssid (((ds.map NetworkDescriptor.ssid).filter
              (fun s => decide (s ∉ (d.ssid :: seen) ∧ s ≠ ""))).toFinset) := by
        ext a
        simp only [Finset.mem_insert, List.mem_toFinset, List.mem_filter,
          decide_eq_true_eq, List.mem_cons, not_or]
        constructor
        · rintro (rfl | ⟨ha, hns, hne⟩)
          · exact Or.inl rfl
          · by_cases had : a = d.ssid
            · exact Or.inl had
            · exact Or.inr ⟨ha, ⟨⟨had, hns⟩, hne⟩⟩
        · rintro (rfl | ⟨ha, ⟨⟨_, hns⟩, hne⟩⟩)
          · exact Or.inl rfl
          · exact Or.inr ⟨ha, hns, hne⟩
      rw [hins, Finset.card_insert_of_not_mem]
      simp

theorem keepFirst_nodup (ds : List NetworkDescriptor) :
    ∀ seen, (((keepFirstBySSID seen ds).map NetworkDescriptor.ssid).Nodup) ∧
      (∀ s ∈ (keepFirstBySSID seen ds).map NetworkDescriptor.ssid, s ∉ seen ∧ s ≠ "") := by
  induction ds with
  | nil => intro seen; simp [keepFirstBySSID]
  | cons d ds ih =>
    intro seen
    simp only [keepFirstBySSID]
    by_cases h : d.ssid ∈ seen ∨ d.ssid = ""
    · rw [if_pos h]; exact ih seen
    · rw [if_neg h]
      push_neg at h
      obtain ⟨ihnd, ihmem⟩ := ih (d.ssid :: seen)
      simp only [List.map_cons, List.nodup_cons]
      refine ⟨⟨fun hmem => ?_, ihnd⟩, ?_⟩
      · exact ((ihmem d.ssid hmem).1 (List.mem_cons_self _ _))
      · intro s hs
        rcases List.mem_cons.mp hs with rfl | hs'
        · exact ⟨h.1, h.2⟩
        · obtain ⟨hns, hne⟩ := ihmem s hs'
          exact ⟨fun hmem => hns (List.mem_cons_of_mem _ hmem), hne⟩

end ParseLemmas

/-- Claim C8: `parseWiFiScanResults` maps the empty string, and any input without
SSID lines, to the empty sequence; it equals the keep-first-occurrence
deduplication of the raw scan records (so for a duplicated SSID only the first
occurrence's record — in particular its security value — appears, blank SSIDs
are dropped, and first-occurrence scan order is preserved); its output length
is the number of distinct non-empty SSIDs; output SSIDs are duplicate-free and
non-empty; and on a concrete input with the same SSID twice under different
security strings only the first security value survives. -/
theorem parseWiFiScanResults_spec :
    (parseWiFiScanResults "" = []) ∧
    (∀ input, (∀ l ∈ splitLines input, jsStartsWith (jsTrim l) "SSID:" = false) →
      parseWiFiScanResults input = []) ∧
    (∀ input, parseWiFiScanResults input = keepFirstBySSID [] (scanRecords (splitLines input))) ∧
    (∀ input, (parseWiFiScanResults input).length =
      ((((scanRecords (splitLines input)).map NetworkDescriptor.ssid).filter
          (fun s => decide (s ≠ ""))).toFinset).card) ∧
    (∀ input, ((parseWiFiScanResults input).map NetworkDescriptor.ssid).Nodup ∧
      ∀ s ∈ (parseWiFiScanResults input).map NetworkDescriptor.ssid, s ≠ "") ∧
    (parseWiFiScanResults "SSID:A\nSECURITY:X\nSSID:A\nSECURITY:Y" = [⟨"A", "X"⟩]) := by
  refine ⟨by decide, ?_, ?_, ?_, ?_, by decide⟩
  · intro input h
    rw [parseWiFiScanResults, parseLoop_eq_keepFirst, scanRecords_eq_nil _ h]
    rfl
  · intro input
    exact parseLoop_eq_keepFirst (splitLines input) []
  · intro input
    rw [parseWiFiScanResults, parseLoop_eq_keepFirst, keepFirst_length]
    have hf : ((scanRecords (splitLines input)).map NetworkDescriptor.ssid).filter
          (fun s => decide (s ∉ ([] : List String) ∧ s ≠ ""))
        = ((scanRecords (splitLines input)).map NetworkDescriptor.ssid).filter
          (fun s => decide (s ≠ "")) := by
      apply List.filter_congr
      intro a _
      simp
    rw [hf]
  · intro input
    rw [parseWiFiScanResults, parseLoop_eq_keepFirst]
    obtain ⟨h1, h2⟩ := keepFirst_nodup (scanRecords (splitLines input)) []
    exact ⟨h1, fun s hs => (h2 s hs).2⟩

/-- Witness for C8: a concrete input without SSID lines parses to the empty list. -/
theorem parseWiFiScanResults_spec_witness :
    parseWiFiScanResults "hello\nworld" = [] :=
  parseWiFiScanResults_spec.2.1 "hello\nworld" (by decide)

/-! ## Polling state machine lemmas for waitForActiveConnection -/

/-- Result of the k-th poll of a `waitForActiveConnection` run starting at command
index `n` (the state-query command carries no type tag). -/
def pollAt (oracle : Nat → ExecOutcome) (n k : Nat) : CommandResult :=
  executeCommandAt oracle (n + k) none

/-- Value of the loop variable `lastConnectionState` before the k-th poll, assuming
the first k polls all continued the loop: it becomes "activating" at the first
poll that takes the activating branch and is never reset. -/
def lastStateAt (oracle : Nat → ExecOutcome) (n : Nat) : Nat → Option String
  | 0 => none
  | k + 1 =>
    if !isActivatedPoll (pollAt oracle n k) && isActivatingPoll (pollAt oracle n k) then
      some "activating"
    else lastStateAt oracle n k

/-- The k-th poll takes one of the two continue branches (given that the first k
polls continued): it is not matched as activated, and it is either an
activating poll, or an unrecognized poll (not deactivated either) while the
loop has not yet seen an activating poll. -/
def continueStep (oracle : Nat → ExecOutcome) (n k : Nat) : Prop :=
  isActivatedPoll (pollAt oracle n k) = false ∧
  (isActivatingPoll (pollAt oracle n k) = true ∨
    (isActivatingPoll (pollAt oracle n k) = false ∧
     isDeactivatedPoll (pollAt oracle n k) = false ∧
     lastStateAt oracle n k ≠ some "activating"))

instance (oracle : Nat → ExecOutcome) (n k : Nat) : Decidable (continueStep oracle n k) := by
  unfold continueStep
  infer_instance

theorem lastStateAt_succ_of_activating (oracle : Nat → ExecOutcome) (n k : Nat)
    (h1 : isActivatedPoll (pollAt oracle n k) = false)
    (h2 : isActivatingPoll (pollAt oracle n k) = true) :
    lastStateAt oracle n (k + 1) = some "activating" := by
  simp [lastStateAt, h1, h2]

theorem lastStateAt_succ_of_not_activating (oracle : Nat → ExecOutcome) (n k : Nat)
    (h2 : isActivatingPoll (pollAt oracle n k) = false) :
    lastStateAt oracle n (k + 1) = lastStateAt oracle n k := by
  simp [lastStateAt, h2]

/-- Once an activating poll has been seen (at a continue step), the loop variable
stays "activating" forever. -/
theorem lastStateAt_of_activating (oracle : Nat → ExecOutcome) (n : Nat) :
    ∀ j i, i < j → isActivatedPoll (pollAt oracle n i) = false →
      isActivatingPoll (pollAt oracle n i) = true →
      lastStateAt oracle n j = some "activating" := by
  intro j
  induction j with
  | zero => intro i hi; omega
  | succ j ih =>
    intro i hi h1 h2
    by_cases hij : i = j
    · subst hij
      exact lastStateAt_succ_of_activating oracle n i h1 h2
    · have hlt : i < j := by omega
      simp only [lastStateAt]
      by_cases hb : (!isActivatedPoll (pollAt oracle n j) && isActivatingPoll (pollAt oracle n j)) = true
      · rw [if_pos hb]
      · rw [if_neg hb]
        exact ih i hlt h1 h2

/-- Skip lemma: if the first j polls of a run all take continue branches, the run
equals j state-query commands followed by the rest of the loop, entered with
the corresponding loop state. -/
theorem waitLoop_skip (oracle : Nat → ExecOutcome) (ssid : String) (n : Nat) :
    ∀ j, j ≤ 75 → (∀ k, k < j → continueStep oracle n k) →
      waitForActiveConnection oracle n ssid =
        ⟨(waitLoop oracle ssid (75 - j) (n + j) (lastStateAt oracle n j)).val,
         List.replicate j (Cmd.connState ssid) ++
           (waitLoop oracle ssid (75 - j) (n + j) (lastStateAt oracle n j)).trace⟩ := by
  intro j
  induction j with
  | zero =>
    intro _ _
    simp [waitForActiveConnection, lastStateAt]
  | succ j ih =>
    intro hj hcont
    have hstep := ih (by omega) (fun k hk => hcont k (by omega))
    rw [hstep]
    have hfuel : 75 - j = (75 - (j + 1)) + 1 := by omega
    rw [hfuel]
    have hp : executeCommandAt oracle (n + j) none = pollAt oracle n j := rfl
    have harr : n + j + 1 = n + (j + 1) := by omega
    obtain ⟨h1, hrest⟩ := hcont j (by omega)
    rcases hrest with h2 | ⟨h2, h3, h4⟩
    · -- activating branch
      simp only [waitLoop]
      rw [hp]
      simp only [h1, h2, Bool.false_eq_true, if_false, if_true, harr,
        lastStateAt_succ_of_activating oracle n j h1 h2]
      simp [List.replicate_succ']
    · -- unrecognized-state continue branch
      simp only [waitLoop]
      rw [hp]
      simp only [h1, h2, h3, Bool.false_eq_true, if_false]
      simp only [if_neg h4]
      simp only [lastStateAt_succ_of_not_activating oracle n j h2, harr]
      simp [List.replicate_succ']

/-- The polling loop issues at most `fuel` state queries. -/
theorem waitLoop_trace_length (oracle : Nat → ExecOutcome) (ssid : String) :
    ∀ fuel n last, (waitLoop oracle ssid fuel n last).trace.length ≤ fuel := by
  intro fuel
  induction fuel with
  | zero => intro n last; simp [waitLoop]
  | succ fuel ih =>
    intro n last
    rw [waitLoop]
    split
    · simp
    · split
      · simpa using Nat.succ_le_succ (ih (n + 1) (some "activating"))
      · split
        · simp
        · split
          · simp
          · simpa using Nat.succ_le_succ (ih (n + 1) last)

/-- Claim C7: `waitForActiveConnection` performs at most 75 polling iterations for
every oracle; and when every one of the 75 polls takes a continue branch (no
terminal activated-success, deactivated, or regression-after-activating
outcome), the run consumes exactly 75 polls and returns the last poll's result
mutated into a failure whose stderr is "Exceeded maximum attempts. Operation
failed.". -/
theorem waitForActiveConnection_bounded :
    (∀ oracle n ssid, (waitForActiveConnection oracle n ssid).trace.length ≤ 75) ∧
    (∀ oracle n ssid, (∀ k, k < 75 → continueStep oracle n k) →
      waitForActiveConnection oracle n ssid =
        ⟨.val { pollAt oracle n 74 with
                success := false,
                stderr := some "Exceeded maximum attempts. Operation failed." },
         List.replicate 75 (Cmd.connState ssid)⟩) := by
  constructor
  · intro oracle n ssid
    exact waitLoop_trace_length oracle ssid 75 n none
  · intro oracle n ssid h
    rw [waitLoop_skip oracle ssid n 75 (by omega) h]
    simp only [Nat.sub_self, waitLoop]
    have h1 : n + 75 - 1 = n + 74 := by omega
    rw [h1]
    simp only [List.append_nil]
    rfl

/-- Concrete oracle whose polls always report an unrecognized state. -/
def oracleUnknown : Nat → ExecOutcome := fun _ => .ok "unknown" ""

set_option maxRecDepth 40000 in
/-- Witness for C7: with every poll unrecognized (and no prior activating state),
the run exhausts all 75 iterations and fails with the exceeded-attempts message. -/
theorem waitForActiveConnection_bounded_witness :
    waitForActiveConnection oracleUnknown 0 "MyNet" =
      ⟨.val { pollAt oracleUnknown 0 74 with
              success := false,
              stderr := some "Exceeded maximum attempts. Operation failed." },
       List.replicate 75 (Cmd.connState "MyNet")⟩ :=
  waitForActiveConnection_bounded.2 oracleUnknown 0 "MyNet" (by decide)

/-- Claim C3: in every run reaching poll j (all earlier polls took continue
branches) where some earlier poll observed a state containing "activating" and
poll j observes an unrecognized state (matching none of "activated",
"activating", "deactivated"), the run fails immediately at poll j with the
wrong-password failure tagged "802-11-wireless-security.psk". -/
theorem waitForActiveConnection_psk_regression :
    ∀ oracle n ssid j, j < 75 →
      (∀ k, k < j → continueStep oracle n k) →
      (∃ i, i < j ∧ isActivatingPoll (pollAt oracle n i) = true) →
      isActivatedPoll (pollAt oracle n j) = false →
      isActivatingPoll (pollAt oracle n j) = false →
      isDeactivatedPoll (pollAt oracle n j) = false →
      waitForActiveConnection oracle n ssid =
        ⟨.val { pollAt oracle n j with
                success := false,
                stderr := some "Operation went from activating to null. Most likely wrong password",
                type := some "802-11-wireless-security.psk" },
         List.replicate (j + 1) (Cmd.connState ssid)⟩ := by
  rintro oracle n ssid j hj hcont ⟨i, hij, hact⟩ h1 h2 h3
  have hiA : isActivatedPoll (pollAt oracle n i) = false := (hcont i hij).1
  have hlast : lastStateAt oracle n j = some "activating" :=
    lastStateAt_of_activating oracle n j i hij hiA hact
  rw [waitLoop_skip oracle ssid n j (by omega) hcont]
  have hfuel : 75 - j = (75 - (j + 1)) + 1 := by omega
  rw [hfuel]
  simp only [waitLoop]
  have hp : executeCommandAt oracle (n + j) none = pollAt oracle n j := rfl
  rw [hp]
  simp only [h1, h2, h3, Bool.false_eq_true, if_false, if_pos hlast]
  simp [List.replicate_succ']

/-- Concrete oracle: two "activating" polls, then an unrecognized state. -/
def oracleRegression : Nat → ExecOutcome := fun k =>
  if k < 2 then .ok "activating" "" else .ok "unknown" ""

/-- Witness for C3: the observed state sequence activating, activating, unknown
yields an immediate PSK-tagged failure at the third poll. -/
theorem waitForActiveConnection_psk_regression_witness :
    waitForActiveConnection oracleRegression 0 "MyNet" =
      ⟨.val { pollAt oracleRegression 0 2 with
              success := false,
              stderr := some "Operation went from activating to null. Most likely wrong password",
              type := some "802-11-wireless-security.psk" },
       List.replicate 3 (Cmd.connState "MyNet")⟩ :=
  waitForActiveConnection_psk_regression oracleRegression 0 "MyNet" 2 (by decide) (by decide)
    ⟨0, by decide, by decide⟩ (by decide) (by decide) (by decide)

/-- Concrete oracle whose first poll succeeds with output containing "deactivated". -/
def oracleDeactivated : Nat → ExecOutcome := fun _ => .ok "GENERAL.STATE: deactivated" ""

/-- Claim C1 evaluated on the code: when the first connection-state query succeeds
with output containing "deactivated", `waitForActiveConnection` returns after
that single poll — but as a SUCCESS carrying the poll's own stdout, not the
claimed failure with message "Connection state deactivating".  The substring
test for "activated" (networkManager.js line 246) also matches "deactivated",
so the dedicated deactivated branch (lines 252-255) is unreachable; moreover
that branch would `return false` rather than the mutated failing result. -/
theorem waitForActiveConnection_deactivated_success :
    waitForActiveConnection oracleDeactivated 0 "MyNet" =
      ⟨.val { type := none, success := true, stdout := some "GENERAL.STATE: deactivated",
              stderr := some "", error := none }, [Cmd.connState "MyNet"]⟩ ∧
    jsIncludes "GENERAL.STATE: deactivated" "deactivated" = true := by
  decide

/-! ## attemptServerConnection lemmas -/

/-- Result of the k-th server probe of an `attemptServerConnection` run starting at
command index `n` (probes are tagged "server connection"). -/
def probeAt (oracle : Nat → ExecOutcome) (n k : Nat) : CommandResult :=
  executeCommandAt oracle (n + k) (some "server connection")

theorem attemptLoop_trace_length (oracle : Nat → ExecOutcome) :
    ∀ fuel n, (attemptLoop oracle fuel n).trace.length ≤ fuel := by
  intro fuel
  induction fuel with
  | zero => intro n; simp [attemptLoop]
  | succ fuel ih =>
    intro n
    rw [attemptLoop]
    split
    · simp
    · simpa using Nat.succ_le_succ (ih (n + 1))

/-- Skip lemma: if the first j probes all fail the success test, the run equals j
probe commands followed by the rest of the retry loop. -/
theorem attemptLoop_skip (oracle : Nat → ExecOutcome) (n : Nat) :
    ∀ j, j ≤ 20 → (∀ k, k < j → serverProbeOk (probeAt oracle n k) = false) →
      attemptServerConnection oracle n =
        ⟨(attemptLoop oracle (20 - j) (n + j)).val,
         List.replicate j Cmd.serverProbe ++ (attemptLoop oracle (20 - j) (n + j)).trace⟩ := by
  intro j
  induction j with
  | zero => intro _ _; simp [attemptServerConnection]
  | succ j ih =>
    intro hj hfail
    rw [ih (by omega) (fun k hk => hfail k (by omega))]
    have hfuel : 20 - j = (20 - (j + 1)) + 1 := by omega
    rw [hfuel]
    simp only [attemptLoop]
    have hp : executeCommandAt oracle (n + j) (some "server connection") = probeAt oracle n j :=
      rfl
    rw [hp]
    simp only [hfail j (by omega), Bool.false_eq_true, if_false]
    have harr : n + j + 1 = n + (j + 1) := by omega
    simp only [harr]
    simp [List.replicate_succ']

/-- Claim C2: `attemptServerConnection` issues at most 20 probes; it stops at the
first probe whose result passes the success test (`success` and output equal to
the literal "1") and returns that probe's result; when all 20 probes fail the
test it returns the 20th probe's result unchanged, which fails the success
test.  Concretely, 19 probes answering "0" followed by one answering "1"
succeed on the 20th attempt, and 20 probes answering "0" leave a returned
outcome that fails the success test. -/
theorem attemptServerConnection_spec :
    (∀ oracle n, (attemptServerConnection oracle n).trace.length ≤ 20) ∧
    (∀ oracle n j, j < 20 →
      (∀ k, k < j → serverProbeOk (probeAt oracle n k) = false) →
      serverProbeOk (probeAt oracle n j) = true →
      attemptServerConnection oracle n =
        ⟨probeAt oracle n j, List.replicate (j + 1) Cmd.serverProbe⟩) ∧
    (∀ oracle n, (∀ k, k < 20 → serverProbeOk (probeAt oracle n k) = false) →
      attemptServerConnection oracle n =
        ⟨probeAt oracle n 19, List.replicate 20 Cmd.serverProbe⟩ ∧
      serverProbeOk (attemptServerConnection oracle n).val = false) := by
  refine ⟨?_, ?_, ?_⟩
  · intro oracle n
    exact attemptLoop_trace_length oracle 20 n
  · intro oracle n j hj hfail hok
    rw [attemptLoop_skip oracle n j (by omega) hfail]
    have hfuel : 20 - j = (20 - (j + 1)) + 1 := by omega
    rw [hfuel]
    simp only [attemptLoop]
    have hp : executeCommandAt oracle (n + j) (some "server connection") = probeAt oracle n j :=
      rfl
    rw [hp]
    simp only [hok, if_true]
    simp [List.replicate_succ']
  · intro oracle n hfail
    have hrun : attemptServerConnection oracle n =
        ⟨probeAt oracle n 19, List.replicate 20 Cmd.serverProbe⟩ := by
      rw [attemptLoop_skip oracle n 20 (by omega) hfail]
      simp only [Nat.sub_self, attemptLoop]
      have h1 : n + 20 - 1 = n + 19 := by omega
      rw [h1]
      simp only [List.append_nil]
      rfl
    exact ⟨hrun, by rw [hrun]; exact hfail 19 (by omega)⟩

/-- Concrete probe oracle: 19 probes answering "0", then "1". -/
def oracleNineteenZeros : Nat → ExecOutcome := fun k =>
  if k < 19 then .ok "0" "" else .ok "1" ""

/-- Witness for C2: with 19 probes answering "0" and the 20th answering "1", the
run returns the 20th probe's successful result after exactly 20 probes. -/
theorem attemptServerConnection_spec_witness :
    attemptServerConnection oracleNineteenZeros 0 =
      ⟨probeAt oracleNineteenZeros 0 19, List.replicate 20 Cmd.serverProbe⟩ ∧
    serverProbeOk (probeAt oracleNineteenZeros 0 19) = true ∧
    (probeAt oracleNineteenZeros 0 19).stdout = some "1" :=
  ⟨attemptServerConnection_spec.2.1 oracleNineteenZeros 0 19 (by decide) (by decide) (by decide),
   by decide, by decide⟩

/-! ## addDNS claims -/

/-- Concrete addDNS oracle: UUID lookup and static-DNS modification succeed, the
disable-automatic-DNS command fails, the down/up cycle succeeds. -/
def dnsOracleDisableFails : Nat → ExecOutcome := fun k =>
  if k = 2 then .err "nmcli: modification failed" else .ok "ok" ""

/-- Claim C6 evaluated on the code: when the UUID lookup and the set-static-DNS
step succeed but the disable-automatic-DNS step fails, `addDNS` still runs the
profile down/up cycle and returns the cycle's result instead of the disable
step's failure.  The test at networkManager.js line 430 is
`if (disableAutoDNS)` on the result object — always truthy — rather than on
its success flag, so the short-circuit branch `return disableAutoDNS` is
unreachable. -/
theorem addDNS_cycles_despite_disable_failure :
    (executeCommand (dnsOracleDisableFails 2) none).success = false ∧
    addDNS dnsOracleDisableFails "8.8.8.8" =
      ⟨some (executeCommand (.ok "ok" "") none),
       [DNSStep.getUUID, DNSStep.modifyDNS, DNSStep.disableAutoDNS,
        DNSStep.cycleConnection]⟩ ∧
    (addDNS dnsOracleDisableFails "8.8.8.8").val ≠
      some (executeCommand (dnsOracleDisableFails 2) none) := by
  decide

/-- Claim C10: `addDNS` returns no result at all (the implicit `undefined`,
modelled as `none`) exactly when the lookup of the active connection's UUID
fails; in every other case it returns some CommandResult. -/
theorem addDNS_undefined_iff_uuid_failure :
    ∀ oracle dns, (addDNS oracle dns).val = none ↔
      (executeCommand (oracle 0) none).success = false := by
  intro oracle dns
  by_cases h : (executeCommand (oracle 0) none).success = true
  · by_cases h2 : (executeCommand (oracle 1) none).success = true
    · simp [addDNS, h, h2, jsObjectTruthy]
    · simp [addDNS, h, h2]
  · have hf : (executeCommand (oracle 0) none).success = false := by
      revert h
      cases (executeCommand (oracle 0) none).success <;> simp
    simp [addDNS, hf]

/-- Concrete addDNS oracle whose UUID lookup fails. -/
def dnsOracleUUIDFails : Nat → ExecOutcome := fun k =>
  if k = 0 then .err "lookup failed" else .ok "ok" ""

/-- Witness for C10: with a failing UUID lookup, addDNS yields no result. -/
theorem addDNS_undefined_iff_uuid_failure_witness :
    (addDNS dnsOracleUUIDFails "8.8.8.8").val = none :=
  (addDNS_undefined_iff_uuid_failure dnsOracleUUIDFails "8.8.8.8").mpr (by decide)

/-! ## connectToNetwork: dispatch and teardown ordering -/

/-- Commands that begin one of the three connection paths: the open-network
connect, the WPA profile add, and the hidden-network profile add. -/
def isPathHead : Cmd → Bool
  | .connectUnsecure _ => true
  | .addWPA _ _ => true
  | .addHidden _ _ => true
  | _ => false

/-- Profile-deletion commands. -/
def isDeleteCmd : Cmd → Bool
  | .deleteConn _ => true
  | _ => false

/-- Command issued by the dispatch step according to the specification's
precedence: the hidden flag first, then WPA-security with a non-empty
password, otherwise the open/unsecured path. -/
def dispatchCmd (data : ConnectionRequest) : Cmd :=
  if data.hidden then Cmd.addHidden data.ssid data.password
  else if jsIncludes (data.security.getD "") "WPA" && jsTruthyStr data.password then
    Cmd.addWPA data.ssid data.password
  else Cmd.connectUnsecure data.ssid

theorem list_filter_eq_nil {α : Type} (p : α → Bool) (l : List α)
    (h : ∀ c ∈ l, p c = false) : l.filter p = [] := by
  induction l with
  | nil => rfl
  | cons a l ih =>
    simp only [List.filter_cons, h a (List.mem_cons_self a l)]
    exact ih (fun c hc => h c (List.mem_cons_of_mem a hc))

theorem list_any_eq_false {α : Type} (p : α → Bool) (l : List α)
    (h : ∀ c ∈ l, p c = false) : l.any p = false := by
  induction l with
  | nil => rfl
  | cons a l ih =>
    simp only [List.any_cons, h a (List.mem_cons_self a l), Bool.false_or]
    exact ih (fun c hc => h c (List.mem_cons_of_mem a hc))

theorem waitLoop_trace_mem (oracle : Nat → ExecOutcome) (ssid : String) :
    ∀ fuel n last c, c ∈ (waitLoop oracle ssid fuel n last).trace → c = Cmd.connState ssid := by
  intro fuel
  induction fuel with
  | zero => intro n last c hc; simp [waitLoop] at hc
  | succ fuel ih =>
    intro n last c hc
    simp only [waitLoop] at hc
    split at hc
    · simpa using hc
    · split at hc
      · rcases List.mem_cons.mp hc with h | h
        · exact h
        · exact ih (n + 1) (some "activating") c h
      · split at hc
        · simpa using hc
        · split at hc
          · simpa using hc
          · rcases List.mem_cons.mp hc with h | h
            · exact h
            · exact ih (n + 1) last c h

theorem attemptLoop_trace_mem (oracle : Nat → ExecOutcome) :
    ∀ fuel n c, c ∈ (attemptLoop oracle fuel n).trace → c = Cmd.serverProbe := by
  intro fuel
  induction fuel with
  | zero => intro n c hc; simp [attemptLoop] at hc
  | succ fuel ih =>
    intro n c hc
    simp only [attemptLoop] at hc
    split at hc
    · simpa using hc
    · rcases List.mem_cons.mp hc with h | h
      · exact h
      · exact ih (n + 1) c h

theorem resolve_trace_mem (oracle : Nat → ExecOutcome) (n : Nat) (st : Option String)
    (conn : CommandResult) (ssid : String) :
    ∀ c ∈ (resolveNetworkConnection oracle n st conn ssid).trace,
      c = Cmd.connState ssid ∨ c = Cmd.serverProbe ∨ c = Cmd.deleteConn ssid := by
  intro c hc
  simp only [resolveNetworkConnection] at hc
  split at hc
  · split at hc
    · split at hc
      · simp only [List.mem_append] at hc
        rcases hc with h | h
        · exact Or.inl (waitLoop_trace_mem oracle ssid 75 n none c h)
        · exact Or.inr (Or.inl (attemptLoop_trace_mem oracle 20 _ c h))
      · simp only [deleteConnectionBySSID, List.mem_append] at hc
        rcases hc with (h | h) | h
        · exact Or.inl (waitLoop_trace_mem oracle ssid 75 n none c h)
        · exact Or.inr (Or.inl (attemptLoop_trace_mem oracle 20 _ c h))
        · exact Or.inr (Or.inr (by simpa using h))
    · simp only [deleteConnectionBySSID, List.mem_append] at hc
      rcases hc with h | h
      · exact Or.inl (waitLoop_trace_mem oracle ssid 75 n none c h)
      · exact Or.inr (Or.inr (by simpa using h))
  · simp at hc

theorem resolve_filter_pathHead (oracle : Nat → ExecOutcome) (n : Nat) (st : Option String)
    (conn : CommandResult) (ssid : String) :
    (resolveNetworkConnection oracle n st conn ssid).trace.filter isPathHead = [] := by
  apply list_filter_eq_nil
  intro c hc
  rcases resolve_trace_mem oracle n st conn ssid c hc with rfl | rfl | rfl <;> rfl

theorem attempt_filter_pathHead (oracle : Nat → ExecOutcome) (n : Nat) :
    (attemptServerConnection oracle n).trace.filter isPathHead = [] := by
  apply list_filter_eq_nil
  intro c hc
  rw [attemptLoop_trace_mem oracle 20 n c hc]
  rfl

theorem unsecure_filter_pathHead (oracle : Nat → ExecOutcome) (n : Nat) (st : Option String)
    (ssid : String) :
    (connectToUnsecureNetwork oracle n st ssid).trace.filter isPathHead =
      [Cmd.connectUnsecure ssid] := by
  simp only [connectToUnsecureNetwork, List.filter_cons]
  simp [isPathHead, resolve_filter_pathHead]

theorem wpa_filter_pathHead (oracle : Nat → ExecOutcome) (n : Nat) (st : Option String)
    (ssid : String) (password : Option String) :
    (connectToWPANetwork oracle n st ssid password).trace.filter isPathHead =
      [Cmd.addWPA ssid password] := by
  simp only [connectToWPANetwork, List.filter_cons]
  simp [isPathHead, resolve_filter_pathHead]

theorem hidden_filter_pathHead (oracle : Nat → ExecOutcome) (n : Nat) (st : Option String)
    (ssid : String) (password : Option String) :
    (connectToHiddenNetwork oracle n st ssid password).trace.filter isPathHead =
      [Cmd.addHidden ssid password] := by
  simp only [connectToHiddenNetwork]
  split
  · split
    · split
      · simp [List.filter_cons, isPathHead, attempt_filter_pathHead]
      · simp only [deleteConnectionBySSID]
        simp [List.filter_cons, List.filter_append, isPathHead, attempt_filter_pathHead]
    · simp only [deleteConnectionBySSID]
      simp [List.filter_cons, isPathHead]
  · simp [List.filter_cons, isPathHead]

/-- Claim C5: every `connectToNetwork` run dispatches exactly one connection path,
chosen by the precedence hidden flag, then WPA-security-with-password, then the
open path: the run's trace contains exactly one path-initial command, and it is
the one prescribed by `dispatchCmd`. -/
theorem connectToNetwork_dispatch_precedence :
    ∀ oracle n st data,
      (connectToNetwork oracle n st data).trace.filter isPathHead = [dispatchCmd data] := by
  intro oracle n st data
  cases st with
  | none =>
    simp only [connectToNetwork, dispatchCmd, List.nil_append]
    split
    · exact hidden_filter_pathHead oracle _ _ _ _
    · split
      · exact wpa_filter_pathHead oracle _ _ _ _
      · exact unsecure_filter_pathHead oracle _ _ _
  | some prev =>
    simp only [connectToNetwork, dispatchCmd, deleteConnectionBySSID]
    rw [List.filter_append]
    have hdel : List.filter isPathHead [Cmd.deleteConn prev] = [] := by rfl
    rw [hdel, List.nil_append]
    split
    · exact hidden_filter_pathHead oracle _ _ _ _
    · split
      · exact wpa_filter_pathHead oracle _ _ _ _
      · exact unsecure_filter_pathHead oracle _ _ _

/-! ## lastConnectionSSID tracking and delete-outcome independence -/

theorem wait_any_delete (oracle : Nat → ExecOutcome) (n : Nat) (ssid : String) :
    (waitForActiveConnection oracle n ssid).trace.any isDeleteCmd = false := by
  apply list_any_eq_false
  intro c hc
  rw [waitLoop_trace_mem oracle ssid 75 n none c hc]
  rfl

theorem attempt_any_delete (oracle : Nat → ExecOutcome) (n : Nat) :
    (attemptServerConnection oracle n).trace.any isDeleteCmd = false := by
  apply list_any_eq_false
  intro c hc
  rw [attemptLoop_trace_mem oracle 20 n c hc]
  rfl

/-- The SSID slot after `resolveNetworkConnection` is cleared exactly when the
resolution issued a delete command, and otherwise keeps its incoming value. -/
theorem resolve_st (oracle : Nat → ExecOutcome) (n : Nat) (st : Option String)
    (conn : CommandResult) (ssid : String) :
    (resolveNetworkConnection oracle n st conn ssid).st =
      (if (resolveNetworkConnection oracle n st conn ssid).trace.any isDeleteCmd then none
       else st) := by
  simp only [resolveNetworkConnection]
  split
  · split
    · split
      · simp [List.any_append, wait_any_delete, attempt_any_delete]
      · simp only [deleteConnectionBySSID]
        simp [List.any_append, isDeleteCmd]
    · simp only [deleteConnectionBySSID]
      simp [List.any_append, isDeleteCmd]
  · simp

theorem unsecure_st (oracle : Nat → ExecOutcome) (n : Nat) (st : Option String)
    (ssid : String) :
    (connectToUnsecureNetwork oracle n st ssid).st =
      (if (connectToUnsecureNetwork oracle n st ssid).trace.any isDeleteCmd then none
       else st) := by
  simp only [connectToUnsecureNetwork, List.any_cons]
  simpa [isDeleteCmd] using resolve_st oracle (n + 1) st
    (executeCommandAt oracle n (some "Unsecure network connection")) ssid

theorem wpa_st (oracle : Nat → ExecOutcome) (n : Nat) (st : Option String)
    (ssid : String) (password : Option String) :
    (connectToWPANetwork oracle n st ssid password).st =
      (if (connectToWPANetwork oracle n st ssid password).trace.any isDeleteCmd then none
       else st) := by
  simp only [connectToWPANetwork, List.any_cons]
  simpa [isDeleteCmd] using resolve_st oracle (n + 1) st
    (executeCommandAt oracle n (some "WPA network connection")) ssid

theorem hidden_st (oracle : Nat → ExecOutcome) (n : Nat) (st : Option String)
    (ssid : String) (password : Option String) :
    (connectToHiddenNetwork oracle n st ssid password).st =
      (if (connectToHiddenNetwork oracle n st ssid password).trace.any isDeleteCmd then none
       else st) := by
  simp only [connectToHiddenNetwork]
  split
  · split
    · split
      · simp [List.any_cons, List.any_append, isDeleteCmd, attempt_any_delete]
      · simp only [deleteConnectionBySSID]
        simp [List.any_cons, List.any_append, isDeleteCmd]
    · simp only [deleteConnectionBySSID]
      simp [List.any_cons, isDeleteCmd]
  · simp [List.any_cons, isDeleteCmd]

/-- Pointwise agreement of two oracles from index n on. -/
def OracleAgree (o1 o2 : Nat → ExecOutcome) (n : Nat) : Prop :=
  ∀ k, n ≤ k → o1 k = o2 k

theorem waitLoop_agree (o1 o2 : Nat → ExecOutcome) (ssid : String) :
    ∀ fuel n last, OracleAgree o1 o2 n → (fuel = 0 → o1 (n - 1) = o2 (n - 1)) →
      waitLoop o1 ssid fuel n last = waitLoop o2 ssid fuel n last := by
  intro fuel
  induction fuel with
  | zero =>
    intro n last _ h0
    simp only [waitLoop, executeCommandAt]
    rw [h0 rfl]
  | succ fuel ih =>
    intro n last h _
    have hn : o1 n = o2 n := h n (le_refl n)
    have h' : OracleAgree o1 o2 (n + 1) := fun k hk => h k (by omega)
    have h0' : fuel = 0 → o1 (n + 1 - 1) = o2 (n + 1 - 1) := fun _ => by simpa using hn
    simp only [waitLoop, executeCommandAt, hn, ih (n + 1) (some "activating") h' h0',
      ih (n + 1) last h' h0']

theorem waitForActiveConnection_agree {o1 o2 : Nat → ExecOutcome} {n : Nat} (ssid : String)
    (h : OracleAgree o1 o2 n) :
    waitForActiveConnection o1 n ssid = waitForActiveConnection o2 n ssid :=
  waitLoop_agree o1 o2 ssid 75 n none h (fun hc => absurd hc (by decide))

theorem attemptLoop_agree (o1 o2 : Nat → ExecOutcome) :
    ∀ fuel n, OracleAgree o1 o2 n → (fuel = 0 → o1 (n - 1) = o2 (n - 1)) →
      attemptLoop o1 fuel n = attemptLoop o2 fuel n := by
  intro fuel
  induction fuel with
  | zero =>
    intro n _ h0
    simp only [attemptLoop, executeCommandAt]
    rw [h0 rfl]
  | succ fuel ih =>
    intro n h _
    have hn : o1 n = o2 n := h n (le_refl n)
    have h' : OracleAgree o1 o2 (n + 1) := fun k hk => h k (by omega)
    have h0' : fuel = 0 → o1 (n + 1 - 1) = o2 (n + 1 - 1) := fun _ => by simpa using hn
    simp only [attemptLoop, executeCommandAt, hn, ih (n + 1) h' h0']

theorem attemptServerConnection_agree {o1 o2 : Nat → ExecOutcome} {n : Nat}
    (h : OracleAgree o1 o2 n) :
    attemptServerConnection o1 n = attemptServerConnection o2 n :=
  attemptLoop_agree o1 o2 20 n h (fun hc => absurd hc (by decide))

theorem resolve_agree {o1 o2 : Nat → ExecOutcome} (n : Nat) (st : Option String)
    (conn : CommandResult) (ssid : String) (h : OracleAgree o1 o2 n) :
    resolveNetworkConnection o1 n st conn ssid = resolveNetworkConnection o2 n st conn ssid := by
  have hw : waitForActiveConnection o1 n ssid = waitForActiveConnection o2 n ssid :=
    waitForActiveConnection_agree ssid h
  have ha : attemptServerConnection o1 (n + (waitForActiveConnection o2 n ssid).trace.length) =
      attemptServerConnection o2 (n + (waitForActiveConnection o2 n ssid).trace.length) :=
    attemptServerConnection_agree (fun k hk => h k (by omega))
  have hd : ∀ m s, n ≤ m → deleteConnectionBySSID o1 m s = deleteConnectionBySSID o2 m s := by
    intro m s hm
    simp only [deleteConnectionBySSID, executeCommandAt, h m hm]
  simp only [resolveNetworkConnection, hw, ha,
    hd (n + (waitForActiveConnection o2 n ssid).trace.length +
      (attemptServerConnection o2
        (n + (waitForActiveConnection o2 n ssid).trace.length)).trace.length) ssid (by omega),
    hd (n + (waitForActiveConnection o2 n ssid).trace.length) ssid (by omega)]

theorem unsecure_agree {o1 o2 : Nat → ExecOutcome} (n : Nat) (st : Option String)
    (ssid : String) (h : OracleAgree o1 o2 n) :
    connectToUnsecureNetwork o1 n st ssid = connectToUnsecureNetwork o2 n st ssid := by
  have h1 : executeCommandAt o1 n (some "Unsecure network connection") =
      executeCommandAt o2 n (some "Unsecure network connection") := by
    simp only [executeCommandAt, h n (le_refl n)]
  simp only [connectToUnsecureNetwork, h1,
    resolve_agree (n + 1) st _ ssid (fun k hk => h k (by omega))]

theorem wpa_agree {o1 o2 : Nat → ExecOutcome} (n : Nat) (st : Option String)
    (ssid : String) (password : Option String) (h : OracleAgree o1 o2 n) :
    connectToWPANetwork o1 n st ssid password = connectToWPANetwork o2 n st ssid password := by
  have h1 : executeCommandAt o1 n (some "WPA network connection") =
      executeCommandAt o2 n (some "WPA network connection") := by
    simp only [executeCommandAt, h n (le_refl n)]
  simp only [connectToWPANetwork, h1,
    resolve_agree (n + 1) st _ ssid (fun k hk => h k (by omega))]

theorem hidden_agree {o1 o2 : Nat → ExecOutcome} (n : Nat) (st : Option String)
    (ssid : String) (password : Option String) (h : OracleAgree o1 o2 n) :
    connectToHiddenNetwork o1 n st ssid password = connectToHiddenNetwork o2 n st ssid password := by
  have h0 : executeCommandAt o1 n (some "Network connection") =
      executeCommandAt o2 n (some "Network connection") := by
    simp only [executeCommandAt, h n (le_refl n)]
  have h1 : executeCommandAt o1 (n + 1) none = executeCommandAt o2 (n + 1) none := by
    simp only [executeCommandAt, h (n + 1) (by omega)]
  have ha : attemptServerConnection o1 (n + 2) = attemptServerConnection o2 (n + 2) :=
    attemptServerConnection_agree (fun k hk => h k (by omega))
  have hd : ∀ m s, n ≤ m → deleteConnectionBySSID o1 m s = deleteConnectionBySSID o2 m s := by
    intro m s hm
    simp only [deleteConnectionBySSID, executeCommandAt, h m hm]
  simp only [connectToHiddenNetwork, h0, h1, ha,
    hd (n + 2 + (attemptServerConnection o2 (n + 2)).trace.length) ssid (by omega),
    hd (n + 2) ssid (by omega)]

/-- Claim C4: when the previously attempted SSID slot holds `prev`, every
`connectToNetwork` run (i) issues the delete command for `prev` as its very
first command, before any connect/add command runs; (ii) is wholly unaffected
by the outcome of that delete command (two oracles differing only at the
delete's index give identical runs); and (iii) records the request's ssid as
the new attempted SSID before dispatching: the final slot is `some data.ssid`
unless the dispatched path itself issued a delete (in which case the slot was
cleared by that delete). -/
theorem connectToNetwork_prior_delete :
    ∀ oracle n prev data,
      ((connectToNetwork oracle n (some prev) data).trace.head? =
        some (Cmd.deleteConn prev)) ∧
      (∀ oracle2, (∀ k, k ≠ n → oracle k = oracle2 k) →
        connectToNetwork oracle n (some prev) data =
          connectToNetwork oracle2 n (some prev) data) ∧
      ((connectToNetwork oracle n (some prev) data).st =
        (if ((connectToNetwork oracle n (some prev) data).trace.drop 1).any isDeleteCmd
         then none else some data.ssid)) := by
  intro oracle n prev data
  refine ⟨rfl, ?_, ?_⟩
  · intro oracle2 hagree
    have h' : OracleAgree oracle oracle2 (n + 1) := fun k hk => hagree k (by omega)
    simp only [connectToNetwork, deleteConnectionBySSID, List.length_cons, List.length_nil]
    split
    · rw [hidden_agree _ _ _ _ h']
    · split
      · rw [wpa_agree _ _ _ _ h']
      · rw [unsecure_agree _ _ _ h']
  · simp only [connectToNetwork, deleteConnectionBySSID, List.singleton_append,
      List.drop_succ_cons, List.drop_zero]
    split
    · exact hidden_st oracle _ _ _ _
    · split
      · exact wpa_st oracle _ _ _ _
      · exact unsecure_st oracle _ _ _

/-- Happy-path oracle for the witness run: delete succeeds, the WPA add succeeds,
the first poll reports activated and the first probe answers "1". -/
def oracleHappy : Nat → ExecOutcome := fun k =>
  if k = 0 then .ok "" ""
  else if k = 1 then .ok "added" ""
  else if k = 2 then .ok "GENERAL.STATE: activated" ""
  else .ok "1" ""

/-- Variant of the happy-path oracle whose delete command fails. -/
def oracleHappyDelFails : Nat → ExecOutcome := fun k =>
  if k = 0 then .err "delete failed" else oracleHappy k

/-- Concrete WPA connection request. -/
def reqHome : ConnectionRequest :=
  { ssid := "Home", password := some "secret123", security := some "WPA2", hidden := false }

/-- Witness for C4: on the concrete happy-path run with prior SSID "OldNet", the
trace starts with the delete of "OldNet", and the run is identical whether the
delete succeeds or fails. -/
theorem connectToNetwork_prior_delete_witness :
    ((connectToNetwork oracleHappy 0 (some "OldNet") reqHome).trace.head? =
      some (Cmd.deleteConn "OldNet")) ∧
    (connectToNetwork oracleHappy 0 (some "OldNet") reqHome =
      connectToNetwork oracleHappyDelFails 0 (some "OldNet") reqHome) :=
  ⟨(connectToNetwork_prior_delete oracleHappy 0 "OldNet" reqHome).1,
   (connectToNetwork_prior_delete oracleHappy 0 "OldNet" reqHome).2.1 oracleHappyDelFails
     (by intro k hk; simp [oracleHappyDelFails, hk])⟩
